import Mathlib

/-!
Shallow embedding of the ticket-workflow and RBAC services of the
customer-support backend (`backend/app/services/tickets_service.py`,
`backend/app/services/rbac_service.py`, `backend/app/api/tickets.py`,
and the ORM models in `backend/app/models/`).

Conventions of the embedding:
* UUID ids become `Nat`; wall-clock instants become `Int` (one unit = one
  day, so `timedelta(days=d)` is the integer `d`).
* The SQLAlchemy session becomes an explicit `DB` value; every service
  method that mutates rows takes the `DB` and returns the updated `DB` on
  success.  The Python services raise `HTTPException` before performing any
  mutation, so an error result carries no state change.
* `datetime.utcnow()` becomes an explicit `now : Int` argument.
* The ORM column default `onupdate=utcnow` on `updated_at` is not modelled;
  only the assignments written in the service code are.
-/

/-- `TicketStatus` enum from `models/ticket.py`. -/
inductive TicketStatus where
  | BOOKED
  | CONFIRMED
  | ASSIGNED
  | IN_PROGRESS
  | COMPLETED
  | CANCELED
  deriving DecidableEq, Repr

/-- `.value` of the Python `str`-enum member. -/
def TicketStatus.value : TicketStatus → String
  | .BOOKED => "BOOKED"
  | .CONFIRMED => "CONFIRMED"
  | .ASSIGNED => "ASSIGNED"
  | .IN_PROGRESS => "IN_PROGRESS"
  | .COMPLETED => "COMPLETED"
  | .CANCELED => "CANCELED"

/-- `ImageType` enum from `models/ticket_image.py`. -/
inductive ImageType where
  | RECEIPT
  | BEFORE
  | AFTER
  | PARTS
  deriving DecidableEq, Repr

/-- `Ticket` row (`models/ticket.py`).  Customer/appointment columns are kept
as abstract data; `version` is the optimistic-locking counter (default 1). -/
structure Ticket where
  id : Nat
  customer_name : String
  customer_phone_hash : String
  address : String
  appointment_date : Int
  appointment_time : Int
  issue_desc : String
  status : TicketStatus
  center_id : Option Nat
  technician_id : Option Nat
  ai_run_id : Option String
  created_at : Int
  updated_at : Int
  completed_at : Option Int
  version : Nat
  deriving DecidableEq, Repr

/-- `TicketEvent` row (`models/ticket.py`).  `details_json` stores the
structured dict passed to `json.dumps`; serialization itself is not
modelled. -/
structure TicketEvent where
  ticket_id : Nat
  actor_user_id : Option Nat
  action : String
  details_json : Option (List (String × String))
  deriving DecidableEq, Repr

/-- `TicketImage` row (`models/ticket_image.py`).  The filesystem columns
(`file_path`, `mime_type`, `size_bytes`, `checksum_sha256`) belong to the
out-of-scope storage service and are omitted. -/
structure TicketImage where
  id : Nat
  ticket_id : Nat
  type : ImageType
  file_name : String
  uploaded_by_user_id : Option Nat
  deriving DecidableEq, Repr

/-- `Technician` row (`models/technician.py`): the columns the tickets
service reads. -/
structure Technician where
  id : Nat
  name : String
  center_id : Option Nat
  is_active : Bool
  deriving DecidableEq, Repr

/-- The relational store seen by `TicketsService` (one SQLAlchemy session).
Rows appear in insertion order, as `session.add` appends them. -/
structure DB where
  tickets : List Ticket
  events : List TicketEvent
  images : List TicketImage
  technicians : List Technician
  deriving DecidableEq, Repr

/-- HTTP error raised by the services (`fastapi.HTTPException`). -/
inductive HTTPError where
  | notFound
  | badRequest
  | conflict
  | internalError
  deriving DecidableEq, Repr

/-- The numeric status code of each raised `HTTPException` (500 for an
unhandled database error surfacing from a handler). -/
def HTTPError.statusCode : HTTPError → Nat
  | .notFound => 404
  | .badRequest => 400
  | .conflict => 409
  | .internalError => 500

/-- `TicketsService.ALLOWED_TRANSITIONS` (tickets_service.py lines 25-32). -/
def ALLOWED_TRANSITIONS : TicketStatus → List TicketStatus
  | .BOOKED => [.CONFIRMED, .CANCELED]
  | .CONFIRMED => [.ASSIGNED, .CANCELED]
  | .ASSIGNED => [.IN_PROGRESS, .CONFIRMED, .CANCELED]
  | .IN_PROGRESS => [.COMPLETED, .ASSIGNED, .CANCELED]
  | .COMPLETED => []
  | .CANCELED => []

/-- `TicketsService.validate_status_transition`. -/
def validate_status_transition (current_status new_status : TicketStatus) : Bool :=
  (ALLOWED_TRANSITIONS current_status).contains new_status

/-- Modelled from the spec: the transition table written in spec section 4.1
(`BOOKED → CONFIRMED → ASSIGNED → IN_PROGRESS → COMPLETED`, `CANCELED` from
any non-terminal state).  This is the comparison point for claim C3, not a
translation of the code. -/
def specTransitionAllowed (current_status new_status : TicketStatus) : Bool :=
  match current_status, new_status with
  | .BOOKED, .CONFIRMED => true
  | .CONFIRMED, .ASSIGNED => true
  | .ASSIGNED, .IN_PROGRESS => true
  | .IN_PROGRESS, .COMPLETED => true
  | .BOOKED, .CANCELED => true
  | .CONFIRMED, .CANCELED => true
  | .ASSIGNED, .CANCELED => true
  | .IN_PROGRESS, .CANCELED => true
  | _, _ => false

/-- `TicketsService.get_ticket_by_id` (the `filter(id == ...).first()`
query; relation loading has no observable effect here). -/
def get_ticket_by_id (db : DB) (ticket_id : Nat) : Option Ticket :=
  db.tickets.find? (fun t => t.id == ticket_id)

/-- Writing the mutated ORM object back: the row with the same id is
replaced, all other rows are untouched. -/
def set_ticket (db : DB) (t : Ticket) : DB :=
  { db with tickets := db.tickets.map (fun x => if x.id == t.id then t else x) }

/-- `TicketsService.create_ticket_event`: builds the event row and
`session.add`s it.  Python stores `json.dumps(details) if details else
None`, so an empty dict also becomes `None`. -/
def create_ticket_event (db : DB) (ticket_id : Nat) (action : String)
    (actor_user_id : Option Nat) (details : Option (List (String × String))) :
    DB × TicketEvent :=
  let details_json :=
    match details with
    | some d => if d.isEmpty then none else some d
    | none => none
  let event : TicketEvent :=
    { ticket_id := ticket_id
      actor_user_id := actor_user_id
      action := action
      details_json := details_json }
  ({ db with events := db.events ++ [event] }, event)

/-- `TicketsService.confirm_ticket` (lines 97-132).  Note: it performs no
version check and does not touch `version`. -/
def confirm_ticket (db : DB) (ticket_id : Nat) (actor_user_id : Option Nat)
    (now : Int) : Except HTTPError (DB × Ticket) :=
  match get_ticket_by_id db ticket_id with
  | none => .error .notFound
  | some ticket =>
    if !(validate_status_transition ticket.status .CONFIRMED) then
      .error .badRequest
    else
      let updated := { ticket with status := TicketStatus.CONFIRMED, updated_at := now }
      let db1 := set_ticket db updated
      let (db2, _) := create_ticket_event db1 ticket_id "CONFIRM" actor_user_id none
      .ok (db2, updated)

/-- `TicketsService.get_available_technicians` (lines 134-149): active
technicians, filtered to the center when a center id is supplied (Python
`if center_id:` — `None` is the only falsy UUID value). -/
def get_available_technicians (db : DB) (center_id : Option Nat) : List Technician :=
  match center_id with
  | some c => db.technicians.filter (fun t => t.is_active && t.center_id == some c)
  | none => db.technicians.filter (fun t => t.is_active)

/-- `TicketsService.get_technician_workload` (lines 151-172): count of this
technician's ASSIGNED / IN_PROGRESS tickets created within the trailing
`days` window. -/
def get_technician_workload (db : DB) (technician_id : Nat) (now : Int)
    (days : Int) : Nat :=
  let since_date := now - days
  db.tickets.countP (fun t =>
    t.technician_id == some technician_id &&
    (t.status == TicketStatus.ASSIGNED || t.status == TicketStatus.IN_PROGRESS) &&
    decide (since_date ≤ t.created_at))

/-- One iteration of the `auto_assign_technician` loop (lines 196-200).
The pair mirrors `(best_technician, min_workload)`, with `none` standing
for the initial `float(inf)`; the strict `<` keeps the first technician
attaining the minimum. -/
def auto_assign_step (db : DB) (now : Int)
    (acc : Option Technician × Option Nat) (technician : Technician) :
    Option Technician × Option Nat :=
  let workload := get_technician_workload db technician.id now 7
  match acc.2 with
  | none => (some technician, some workload)
  | some min_workload =>
    if workload < min_workload then (some technician, some workload) else acc

/-- `TicketsService.auto_assign_technician` (lines 174-202): least-workload
selection over the available technicians. -/
def auto_assign_technician (db : DB) (center_id : Option Nat) (now : Int) :
    Option Technician :=
  let available_technicians := get_available_technicians db center_id
  if available_technicians.isEmpty then
    none
  else
    (available_technicians.foldl (auto_assign_step db now) (none, none)).1

/-- `TicketsService.assign_ticket` (lines 204-296).  `version` is an
optional keyword argument in the service; the check runs only when it is
supplied.  `kwargs` are the extra details merged into the event dict. -/
def assign_ticket (db : DB) (ticket_id : Nat) (technician_id : Option Nat)
    (auto_assign : Bool) (actor_user_id : Option Nat) (version : Option Nat)
    (kwargs : List (String × String)) (now : Int) :
    Except HTTPError (DB × Ticket) :=
  match get_ticket_by_id db ticket_id with
  | none => .error .notFound
  | some ticket =>
    if (match version with
        | some v => ticket.version != v
        | none => false) then
      .error .conflict
    else if !(validate_status_transition ticket.status .ASSIGNED) then
      .error .badRequest
    else
      let chosen : Except HTTPError Technician :=
        if auto_assign then
          match auto_assign_technician db ticket.center_id now with
          | none => .error .badRequest
          | some technician => .ok technician
        else
          match technician_id with
          | none => .error .badRequest
          | some tid =>
            match db.technicians.find? (fun t => t.id == tid && t.is_active) with
            | none => .error .notFound
            | some technician => .ok technician
      match chosen with
      | .error e => .error e
      | .ok technician =>
        let updated := { ticket with
          status := TicketStatus.ASSIGNED
          technician_id := some technician.id
          updated_at := now
          version := ticket.version + 1 }
        let db1 := set_ticket db updated
        let event_details :=
          [("technician_id", toString technician.id),
           ("technician_name", technician.name),
           ("assignment_method", if auto_assign then "auto" else "manual")] ++ kwargs
        let (db2, _) := create_ticket_event db1 ticket_id "ASSIGN" actor_user_id
          (some event_details)
        .ok (db2, updated)

/-- The receipt-count query inside `complete_ticket` (lines 326-331). -/
def receipt_count (db : DB) (ticket_id : Nat) : Nat :=
  (db.images.filter (fun img =>
    img.ticket_id == ticket_id && img.type == ImageType.RECEIPT)).length

/-- `TicketsService.complete_ticket` (lines 298-348).  Requires status
ASSIGNED or IN_PROGRESS and at least one RECEIPT image; does not touch
`version`. -/
def complete_ticket (db : DB) (ticket_id : Nat) (actor_user_id : Option Nat)
    (now : Int) : Except HTTPError (DB × Ticket) :=
  match get_ticket_by_id db ticket_id with
  | none => .error .notFound
  | some ticket =>
    if !(ticket.status == TicketStatus.ASSIGNED || ticket.status == TicketStatus.IN_PROGRESS) then
      .error .badRequest
    else if receipt_count db ticket_id == 0 then
      .error .badRequest
    else
      let updated := { ticket with
        status := TicketStatus.COMPLETED
        completed_at := some now
        updated_at := now }
      let db1 := set_ticket db updated
      let (db2, _) := create_ticket_event db1 ticket_id "COMPLETE" actor_user_id none
      .ok (db2, updated)

/-- `TicketUpdate` request schema (`models/ticket.py`): `version` is a
required field, the rest optional. -/
structure TicketUpdate where
  status : Option TicketStatus
  technician_id : Option Nat
  center_id : Option Nat
  version : Nat
  deriving DecidableEq, Repr

/-- `PATCH /tickets/{id}/status` handler `update_ticket_status`
(`api/tickets.py` lines 344-404): version check, then — only when a
different status is requested — transition validation, status write,
`version += 1` and a STATUS_CHANGE event.  It never checks receipt images
and ignores `technician_id` / `center_id` of the payload. -/
def update_ticket_status (db : DB) (ticket_id : Nat) (upd : TicketUpdate)
    (actor_user_id : Nat) (_now : Int) : Except HTTPError (DB × Ticket) :=
  match get_ticket_by_id db ticket_id with
  | none => .error .notFound
  | some ticket =>
    if ticket.version ≠ upd.version then
      .error .conflict
    else
      match upd.status with
      | some new_status =>
        if new_status ≠ ticket.status then
          if !(validate_status_transition ticket.status new_status) then
            .error .badRequest
          else
            let updated := { ticket with
              status := new_status
              version := ticket.version + 1 }
            let db1 := set_ticket db updated
            let (db2, _) := create_ticket_event db1 ticket_id "STATUS_CHANGE"
              (some actor_user_id)
              (some [("old_status", ticket.status.value),
                     ("new_status", new_status.value)])
            .ok (db2, updated)
        else
          .ok (db, ticket)
      | none => .ok (db, ticket)

/-- The public booking payload (`BookingRequest`, phone already hashed). -/
structure BookingData where
  customer_name : String
  customer_phone_hash : String
  address : String
  appointment_date : Int
  appointment_time : Int
  issue_desc : String
  deriving DecidableEq, Repr

/-- `POST /public/booking` handler `submit_booking` (`api/tickets.py` lines
105-142; a second handler with the same body wraps it in a 500 in
`api/appointments.py` lines 109-158).  The handler builds the BOOKED ticket
row and then calls `create_ticket_event(ticket.id, "CONFIRM", ...)` with
the pre-flush `ticket.id`, which is still `None`: the uuid4 column default
runs only at flush and the session is `autoflush=False`
(`scripts/seed_tickets.py` line 152 documents committing first as the
workaround).  `ticket_events.ticket_id` is NOT NULL, so the commit always
raises IntegrityError: the endpoint answers 500 and the rolled-back
transaction stores nothing.  The embedding keeps that observable outcome:
an internal error and no state change. -/
def submit_booking (_db : DB) (_b : BookingData) (_new_id : Nat) (_now : Int) :
    Except HTTPError (DB × Ticket) :=
  .error .internalError

/-- `POST /tickets/{id}/images` handler `upload_ticket_image`
(`api/tickets.py` lines 222-290): verifies the ticket exists, stores a
RECEIPT image row and an UPLOAD_RECEIPT event.  `new_image_id` stands for
the UUID the image row receives at flush; the event's details, however,
record `str(image.id)` taken before any flush (line 265), and `image.id`
is still `None` there, so the stored detail value is the literal string
"None".  The saved-file metadata is out of scope. -/
def upload_ticket_image (db : DB) (ticket_id : Nat) (actor_user_id : Nat)
    (new_image_id : Nat) (filename : String) :
    Except HTTPError (DB × TicketImage) :=
  match get_ticket_by_id db ticket_id with
  | none => .error .notFound
  | some _ =>
    let image : TicketImage :=
      { id := new_image_id
        ticket_id := ticket_id
        type := ImageType.RECEIPT
        file_name := filename
        uploaded_by_user_id := some actor_user_id }
    let db1 := { db with images := db.images ++ [image] }
    let (db2, _) := create_ticket_event db1 ticket_id "UPLOAD_RECEIPT"
      (some actor_user_id)
      (some [("image_id", "None"), ("filename", filename)])
    .ok (db2, image)

/-- `Permission` row (`models/role.py`): code plus category tag. -/
structure Permission where
  id : Nat
  code : String
  category : String
  deriving DecidableEq, Repr

/-- `Role` row (`models/role.py`): many-to-many `permissions`, and the
`users` relationship is kept as the list of assigned user ids (what
`delete_role` inspects via `len(role.users)`). -/
structure Role where
  id : Nat
  name : String
  description : String
  is_system : Bool
  permissions : List Permission
  users : List Nat
  deriving DecidableEq, Repr

/-- `User` with its `roles` relationship loaded (`models/user.py`), as the
permission-check methods read it. -/
structure User where
  id : Nat
  roles : List Role
  deriving DecidableEq, Repr

/-- `RoleUpdate` request schema (`models/role.py`): all fields optional. -/
structure RoleUpdate where
  name : Option String
  description : Option String
  permission_codes : Option (List String)
  deriving DecidableEq, Repr

/-- The relational store seen by `RBACService`: the `roles` and
`permissions` tables. -/
structure RbacDB where
  roles : List Role
  permission_table : List Permission
  deriving DecidableEq, Repr

/-- `ALL_PERMISSIONS` (rbac_service.py lines 13-57): the `PERMISSIONS`
dict flattened in its insertion order. -/
def ALL_PERMISSIONS : List String :=
  ["users.read", "users.write",
   "roles.read", "roles.write",
   "permissions.read",
   "audit.read",
   "tickets.read", "tickets.write", "tickets.assign", "tickets.complete",
   "tickets.upload",
   "warranty.read", "warranty.reindex",
   "centers.write",
   "ai.workflow.run", "ai.chat",
   "geo.read",
   "system.admin"]

/-- `SYSTEM_ROLE_CORE_PERMISSIONS` (rbac_service.py lines 60-65) as a
lookup by role name. -/
def SYSTEM_ROLE_CORE_PERMISSIONS : String → Option (List String)
  | "admin" => some ALL_PERMISSIONS
  | "agent" => some ["tickets.read", "tickets.write", "tickets.upload", "warranty.read"]
  | "viewer" => some ["tickets.read", "warranty.read"]
  | "ops_manager" => some ["users.read", "tickets.read", "tickets.assign",
                           "tickets.complete", "warranty.reindex", "centers.write"]
  | _ => none

/-- `RBACService.user_has_role` (lines 189-203). -/
def user_has_role (user : User) (role_name : String) : Bool :=
  user.roles.any (fun role => role.name == role_name)

/-- `RBACService.user_has_permission` (lines 141-162): admin short-circuit,
then a scan over every role's permissions. -/
def user_has_permission (user : User) (permission_code : String) : Bool :=
  if user_has_role user "admin" then
    true
  else
    user.roles.any (fun role =>
      role.permissions.any (fun permission => permission.code == permission_code))

/-- `RBACService.get_user_permissions` (lines 205-219).  Python builds a
`set`; the embedding keeps the codes as a list and all claims about it are
stated through membership, which is exactly the set's extension. -/
def get_user_permissions (user : User) : List String :=
  user.roles.flatMap (fun role => role.permissions.map (fun p => p.code))

/-- `RBACService.user_has_permissions` (lines 164-187): admin
short-circuit, then every requested code must be in the aggregated set. -/
def user_has_permissions (user : User) (permission_codes : List String) : Bool :=
  if user_has_role user "admin" then
    true
  else
    permission_codes.all (fun code => (get_user_permissions user).contains code)

/-- `RBACService.validate_permission_codes` (lines 125-139): vacuously true
for an empty list, else every code must exist in the permissions table. -/
def validate_permission_codes (db : RbacDB) (codes : List String) : Bool :=
  if codes.isEmpty then
    true
  else
    codes.all (fun code => (db.permission_table.map (fun p => p.code)).contains code)

/-- Python `set.issubset` on the two code sets in `update_role`. -/
def codes_subset (l1 l2 : List String) : Bool :=
  l1.all (fun c => l2.contains c)

/-- Replacing the mutated role row, as `set_ticket` does for tickets. -/
def set_role (db : RbacDB) (r : Role) : RbacDB :=
  { db with roles := db.roles.map (fun x => if x.id == r.id then r else x) }

/-- The field assignments of `RBACService.update_role` (lines 372-383):
name and description when supplied, then the permission rows matching the
supplied codes. -/
def apply_role_data (db : RbacDB) (role : Role) (role_data : RoleUpdate) : Role :=
  let role1 := { role with
    name := role_data.name.getD role.name
    description := role_data.description.getD role.description }
  match role_data.permission_codes with
  | some codes =>
    { role1 with permissions :=
        db.permission_table.filter (fun p => codes.contains p.code) }
  | none => role1

/-- `RBACService.update_role` (lines 325-388).  Returns `(db, none)` when
the role id is unknown (Python returns `None`); raises 400 when a system
role would be renamed, when a system role would lose a core permission, or
when a supplied code is not in the permissions table.  All raises happen
before any field assignment, so an error leaves the store unchanged. -/
def update_role (db : RbacDB) (role_id : Nat) (role_data : RoleUpdate) :
    Except HTTPError (RbacDB × Option Role) :=
  match db.roles.find? (fun r => r.id == role_id) with
  | none => .ok (db, none)
  | some role =>
    if role.is_system &&
        (match role_data.name with
         | some n => n != role.name
         | none => false) then
      .error .badRequest
    else if role.is_system &&
        (match role_data.permission_codes, SYSTEM_ROLE_CORE_PERMISSIONS role.name with
         | some new_codes, some core => !(codes_subset core new_codes)
         | _, _ => false) then
      .error .badRequest
    else if (match role_data.permission_codes with
             | some codes => !(validate_permission_codes db codes)
             | none => false) then
      .error .badRequest
    else
      .ok (set_role db (apply_role_data db role role_data),
           some (apply_role_data db role role_data))

/-- `RBACService.delete_role` (lines 390-424): `false` when the id is
unknown, 400 for a system role, 409 for a role with assigned users, else
the row is deleted and `true` returned.  The raises precede the delete, so
an error leaves the store unchanged. -/
def delete_role (db : RbacDB) (role_id : Nat) : Except HTTPError (RbacDB × Bool) :=
  match db.roles.find? (fun r => r.id == role_id) with
  | none => .ok (db, false)
  | some role =>
    if role.is_system then
      .error .badRequest
    else if !role.users.isEmpty then
      .error .conflict
    else
      .ok ({ db with roles := db.roles.filter (fun r => !(r.id == role_id)) }, true)

/-- One call of a sequence of `update_role` requests: a failed or
no-such-role call leaves the store as it was. -/
def apply_role_update (db : RbacDB) (op : Nat × RoleUpdate) : RbacDB :=
  match update_role db op.1 op.2 with
  | .ok (db1, _) => db1
  | .error _ => db

/-- A whole sequence of `update_role` calls. -/
def apply_role_updates (db : RbacDB) (ops : List (Nat × RoleUpdate)) : RbacDB :=
  ops.foldl apply_role_update db

/-- The C7 invariant for a single role: a system role whose name appears in
`SYSTEM_ROLE_CORE_PERMISSIONS` carries all of its core permission codes. -/
def role_core_ok (r : Role) : Bool :=
  match SYSTEM_ROLE_CORE_PERMISSIONS r.name with
  | some core => !r.is_system || codes_subset core (r.permissions.map (fun p => p.code))
  | none => true

/-- The C7 invariant over the whole store. -/
def roles_core_ok (db : RbacDB) : Bool :=
  db.roles.all role_core_ok

/-- C3 (counterexample): the claim says `validate_status_transition`
returns true exactly on the spec's transition table, but the code also
allows the backward step ASSIGNED → CONFIRMED, which the spec table
forbids. -/
theorem transition_backward_step_counterexample :
    validate_status_transition TicketStatus.ASSIGNED TicketStatus.CONFIRMED = true ∧
    specTransitionAllowed TicketStatus.ASSIGNED TicketStatus.CONFIRMED = false := by
  decide

/-- C3 (amended): `validate_status_transition` returns true exactly on the
spec's transition table extended with the two backward steps
ASSIGNED → CONFIRMED and IN_PROGRESS → ASSIGNED; in particular COMPLETED
and CANCELED still allow no outgoing transition. -/
theorem transition_table_characterization :
    ∀ c n, validate_status_transition c n =
      (specTransitionAllowed c n ||
       (c == TicketStatus.ASSIGNED && n == TicketStatus.CONFIRMED) ||
       (c == TicketStatus.IN_PROGRESS && n == TicketStatus.ASSIGNED)) := by
  intro c n
  cases c <;> cases n <;> decide

/-- C6: membership in `get_user_permissions u` is exactly membership in the
union of the permission codes over all of the user's roles (empty union for
a user with no roles), and `user_has_permission` holds iff the user has an
"admin"-named role or the code belongs to that union. -/
theorem user_permissions_union_admin (u : User) (code : String) :
    (∀ c, c ∈ get_user_permissions u ↔ ∃ r ∈ u.roles, ∃ p ∈ r.permissions, p.code = c) ∧
    (user_has_permission u code = true ↔
      (user_has_role u "admin" = true ∨ code ∈ get_user_permissions u)) := by
  constructor
  · intro c
    simp [get_user_permissions]
  · by_cases h : user_has_role u "admin" = true
    · simp [user_has_permission, h]
    · simp [user_has_permission, h, get_user_permissions]

/-- C10: `user_has_permissions u codes` holds iff `user_has_permission u c`
holds for every `c` in `codes`; for the empty list it is true for every
user, roles or none. -/
theorem user_has_permissions_forall (u : User) (codes : List String) :
    (user_has_permissions u codes = true ↔ ∀ c ∈ codes, user_has_permission u c = true) ∧
    user_has_permissions u [] = true := by
  constructor
  · by_cases h : user_has_role u "admin" = true
    · simp [user_has_permissions, user_has_permission, h]
    · simp [user_has_permissions, user_has_permission, h, List.all_eq_true,
        List.elem_iff, get_user_permissions]
  · simp [user_has_permissions]

/-- C9: `delete_role` returns false when the id is unknown; raises HTTP 400
for a system role; raises HTTP 409 for a non-system role with assigned
users; and deletes the row (returning true) exactly for a non-system role
with no assigned users.  Errors return no new store, matching the Python
raises that precede any mutation. -/
theorem delete_role_characterization (db : RbacDB) (role_id : Nat) :
    (db.roles.find? (fun r => r.id == role_id) = none →
       delete_role db role_id = .ok (db, false)) ∧
    (∀ role, db.roles.find? (fun r => r.id == role_id) = some role →
       (role.is_system = true →
          delete_role db role_id = .error .badRequest ∧
          HTTPError.badRequest.statusCode = 400) ∧
       (role.is_system = false → role.users ≠ [] →
          delete_role db role_id = .error .conflict ∧
          HTTPError.conflict.statusCode = 409) ∧
       (role.is_system = false → role.users = [] →
          delete_role db role_id =
            .ok ({ db with roles := db.roles.filter (fun r => !(r.id == role_id)) }, true))) := by
  refine ⟨?_, ?_⟩
  · intro h
    simp [delete_role, h]
  · intro role h
    refine ⟨?_, ?_, ?_⟩
    · intro hs
      simp [delete_role, h, hs, HTTPError.statusCode]
    · intro hs hu
      simp [delete_role, h, hs, hu, HTTPError.statusCode]
    · intro hs hu
      simp [delete_role, h, hs, hu]

/-- Concrete permission row used by the C6 witness. -/
def w6_perm : Permission := { id := 1, code := "tickets.read", category := "tickets" }

/-- Concrete role used by the C6 witness. -/
def w6_role : Role :=
  { id := 1, name := "agent", description := "support agent", is_system := true,
    permissions := [w6_perm], users := [7] }

/-- Concrete user used by the C6 witness. -/
def w6_user : User := { id := 7, roles := [w6_role] }

/-- C6 witness: the theorem evaluated on a concrete one-role user. -/
theorem user_permissions_union_admin_witness :
    user_has_permission w6_user "tickets.read" = true :=
  (user_permissions_union_admin w6_user "tickets.read").2.mpr (Or.inr (by decide))

/-- Concrete role used by the C10 witness. -/
def w10_role : Role :=
  { id := 2
    name := "viewer"
    description := "viewer"
    is_system := true
    permissions := [{ id := 1, code := "tickets.read", category := "tickets" },
                    { id := 2, code := "warranty.read", category := "warranty" }]
    users := [8] }

/-- Concrete user used by the C10 witness. -/
def w10_user : User := { id := 8, roles := [w10_role] }

/-- C10 witness: the theorem evaluated on a concrete user and code list. -/
theorem user_has_permissions_forall_witness :
    user_has_permissions w10_user ["tickets.read", "warranty.read"] = true :=
  (user_has_permissions_forall w10_user ["tickets.read", "warranty.read"]).1.mpr (by decide)

/-- Deletable role for the C9 witness. -/
def w9_role1 : Role :=
  { id := 1, name := "temp", description := "", is_system := false,
    permissions := [], users := [] }

/-- System role for the C9 witness. -/
def w9_role3 : Role :=
  { id := 3, name := "admin", description := "", is_system := true,
    permissions := [], users := [] }

/-- Role with an assigned user for the C9 witness. -/
def w9_role4 : Role :=
  { id := 4, name := "shift_lead", description := "", is_system := false,
    permissions := [], users := [5] }

/-- Concrete store for the C9 witness. -/
def w9_db : RbacDB :=
  { roles := [w9_role1, w9_role3, w9_role4], permission_table := [] }

/-- C9 witness: the theorem evaluated on a concrete store, one instance per
case (deletable role, unknown id, system role, role with users). -/
theorem delete_role_characterization_witness :
    delete_role w9_db 1 =
      .ok ({ w9_db with roles := w9_db.roles.filter (fun r => !(r.id == 1)) }, true) ∧
    delete_role w9_db 2 = .ok (w9_db, false) ∧
    delete_role w9_db 3 = .error .badRequest ∧
    delete_role w9_db 4 = .error .conflict :=
  ⟨((delete_role_characterization w9_db 1).2 w9_role1 (by decide)).2.2 (by decide) (by decide),
   (delete_role_characterization w9_db 2).1 (by decide),
   (((delete_role_characterization w9_db 3).2 w9_role3 (by decide)).1 (by decide)).1,
   (((delete_role_characterization w9_db 4).2 w9_role4 (by decide)).2.1 (by decide)
     (by decide)).1⟩

/-- Helper for C5: running the selection loop from a seeded best candidate
returns a technician of minimal workload among the seed and the rest of the
list, and the tracked minimum always equals the best candidate's workload. -/
theorem auto_assign_fold_min (db : DB) (now : Int) :
    ∀ (l : List Technician) (b : Technician),
      ∃ t,
        l.foldl (auto_assign_step db now)
            (some b, some (get_technician_workload db b.id now 7)) =
          (some t, some (get_technician_workload db t.id now 7)) ∧
        (t = b ∨ t ∈ l) ∧
        get_technician_workload db t.id now 7 ≤ get_technician_workload db b.id now 7 ∧
        ∀ u ∈ l, get_technician_workload db t.id now 7 ≤ get_technician_workload db u.id now 7 := by
  intro l
  induction l with
  | nil =>
    intro b
    exact ⟨b, rfl, Or.inl rfl, le_refl _, by simp⟩
  | cons hd tl ih =>
    intro b
    by_cases hlt : get_technician_workload db hd.id now 7 <
        get_technician_workload db b.id now 7
    · obtain ⟨t, hfold, hmem, hle, hall⟩ := ih hd
      have hstep : auto_assign_step db now
          (some b, some (get_technician_workload db b.id now 7)) hd =
          (some hd, some (get_technician_workload db hd.id now 7)) := by
        simp [auto_assign_step, hlt]
      refine ⟨t, ?_, ?_, ?_, ?_⟩
      · rw [List.foldl_cons, hstep]; exact hfold
      · rcases hmem with h | h
        · exact Or.inr (h ▸ List.mem_cons_self hd tl)
        · exact Or.inr (List.mem_cons_of_mem hd h)
      · exact le_trans hle (le_of_lt hlt)
      · intro u hu
        rcases List.mem_cons.mp hu with h | h
        · exact h ▸ hle
        · exact hall u h
    · obtain ⟨t, hfold, hmem, hle, hall⟩ := ih b
      have hstep : auto_assign_step db now
          (some b, some (get_technician_workload db b.id now 7)) hd =
          (some b, some (get_technician_workload db b.id now 7)) := by
        simp [auto_assign_step, hlt]
      refine ⟨t, ?_, ?_, ?_, ?_⟩
      · rw [List.foldl_cons, hstep]; exact hfold
      · rcases hmem with h | h
        · exact Or.inl h
        · exact Or.inr (List.mem_cons_of_mem hd h)
      · exact hle
      · intro u hu
        rcases List.mem_cons.mp hu with h | h
        · exact h ▸ le_trans hle (not_lt.mp hlt)
        · exact hall u h

/-- Helper for C5: members of `get_available_technicians` are active
technicians of the store, in the requested center when one is supplied. -/
theorem mem_available_technicians (db : DB) (center_id : Option Nat) :
    ∀ t ∈ get_available_technicians db center_id,
      t ∈ db.technicians ∧ t.is_active = true ∧
      ∀ c, center_id = some c → t.center_id = some c := by
  intro t ht
  cases center_id with
  | none =>
    simp only [get_available_technicians, List.mem_filter] at ht
    exact ⟨ht.1, ht.2, by simp⟩
  | some c =>
    simp only [get_available_technicians, List.mem_filter, Bool.and_eq_true,
      beq_iff_eq] at ht
    refine ⟨ht.1, ht.2.1, ?_⟩
    intro c2 hc2
    cases hc2
    exact ht.2.2

/-- C5: `auto_assign_technician` returns `none` exactly when no active
technician is available (in the given center when one is supplied);
otherwise it returns an available (hence active, center-matching)
technician whose trailing-7-day ASSIGNED/IN_PROGRESS workload is minimal
among all available technicians. -/
theorem auto_assign_least_workload (db : DB) (center_id : Option Nat) (now : Int) :
    (auto_assign_technician db center_id now = none ↔
      get_available_technicians db center_id = []) ∧
    (∀ t, auto_assign_technician db center_id now = some t →
       t ∈ get_available_technicians db center_id ∧
       t.is_active = true ∧
       (∀ c, center_id = some c → t.center_id = some c) ∧
       ∀ u ∈ get_available_technicians db center_id,
         get_technician_workload db t.id now 7 ≤ get_technician_workload db u.id now 7) := by
  cases havail : get_available_technicians db center_id with
  | nil =>
    constructor
    · simp [auto_assign_technician, havail]
    · intro t ht
      simp [auto_assign_technician, havail] at ht
  | cons hd tl =>
    obtain ⟨t0, hfold, hmem, hle, hall⟩ := auto_assign_fold_min db now tl hd
    have hstep : auto_assign_step db now (none, none) hd =
        (some hd, some (get_technician_workload db hd.id now 7)) := by
      simp [auto_assign_step]
    have hres : auto_assign_technician db center_id now = some t0 := by
      simp only [auto_assign_technician, havail, List.isEmpty_cons, if_false,
        Bool.false_eq_true, List.foldl_cons]
      rw [hstep, hfold]
    constructor
    · simp [hres]
    · intro t ht
      rw [hres] at ht
      cases ht
      have hmem2 : t0 ∈ hd :: tl := by
        rcases hmem with h | h
        · exact h ▸ List.mem_cons_self hd tl
        · exact List.mem_cons_of_mem hd h
      have hmem3 : t0 ∈ get_available_technicians db center_id := by
        rw [havail]; exact hmem2
      obtain ⟨-, hact, hcen⟩ := mem_available_technicians db center_id t0 hmem3
      refine ⟨hmem2, hact, hcen, ?_⟩
      intro u hu
      rcases List.mem_cons.mp hu with h | h
      · exact h ▸ hle
      · exact hall u h

/-- Technician with existing workload for the C5 witness. -/
def w5_tech1 : Technician := { id := 1, name := "Li", center_id := none, is_active := true }

/-- Idle technician for the C5 witness. -/
def w5_tech2 : Technician := { id := 2, name := "Wang", center_id := none, is_active := true }

/-- An ASSIGNED ticket of technician 1 inside the 7-day window, for the C5
witness. -/
def w5_ticket : Ticket :=
  { id := 10
    customer_name := "c"
    customer_phone_hash := "h"
    address := "addr"
    appointment_date := 0
    appointment_time := 0
    issue_desc := "leak"
    status := TicketStatus.ASSIGNED
    center_id := none
    technician_id := some 1
    ai_run_id := none
    created_at := 5
    updated_at := 5
    completed_at := none
    version := 2 }

/-- Concrete store for the C5 witness. -/
def w5_db : DB :=
  { tickets := [w5_ticket], events := [], images := [], technicians := [w5_tech1, w5_tech2] }

/-- C5 witness: with technician 1 loaded and technician 2 idle, the theorem
applied at this store yields technician 2 and its minimality. -/
theorem auto_assign_least_workload_witness :
    auto_assign_technician w5_db none 6 = some w5_tech2 ∧
    w5_tech2.is_active = true ∧
    get_technician_workload w5_db w5_tech2.id 6 7 ≤
      get_technician_workload w5_db w5_tech1.id 6 7 :=
  ⟨by decide,
   ((auto_assign_least_workload w5_db none 6).2 w5_tech2 (by decide)).2.1,
   ((auto_assign_least_workload w5_db none 6).2 w5_tech2 (by decide)).2.2.2 w5_tech1
     (by decide)⟩

/-- Shape of a successful `confirm_ticket` call: the found ticket gets
status CONFIRMED (version untouched) and exactly one CONFIRM event is
appended. -/
theorem confirm_ticket_ok_shape (db : DB) (tid : Nat) (a : Option Nat) (now : Int)
    (db2 : DB) (t2 : Ticket)
    (h : confirm_ticket db tid a now = .ok (db2, t2)) :
    ∃ t, get_ticket_by_id db tid = some t ∧
      validate_status_transition t.status .CONFIRMED = true ∧
      t2 = { t with status := TicketStatus.CONFIRMED, updated_at := now } ∧
      db2 = (create_ticket_event (set_ticket db t2) tid "CONFIRM" a none).1 := by
  unfold confirm_ticket at h
  cases hfind : get_ticket_by_id db tid with
  | none =>
    rw [hfind] at h
    exact absurd h (by simp)
  | some t =>
    rw [hfind] at h
    by_cases hv : validate_status_transition t.status .CONFIRMED
    · simp only [hv, Bool.not_true, Bool.false_eq_true, if_false, Except.ok.injEq,
        Prod.mk.injEq] at h
      exact ⟨t, rfl, hv, h.2.symm, by rw [← h.1, ← h.2]⟩
    · rw [Bool.not_eq_true] at hv
      simp [hv] at h

/-- Shape of a successful `complete_ticket` call: requires ASSIGNED or
IN_PROGRESS and a nonzero receipt count; the ticket gets status COMPLETED
(version untouched) and exactly one COMPLETE event is appended. -/
theorem complete_ticket_ok_shape (db : DB) (tid : Nat) (a : Option Nat) (now : Int)
    (db2 : DB) (t2 : Ticket)
    (h : complete_ticket db tid a now = .ok (db2, t2)) :
    ∃ t, get_ticket_by_id db tid = some t ∧
      (t.status = TicketStatus.ASSIGNED ∨ t.status = TicketStatus.IN_PROGRESS) ∧
      receipt_count db tid ≠ 0 ∧
      t2 = { t with
              status := TicketStatus.COMPLETED
              completed_at := some now
              updated_at := now } ∧
      db2 = (create_ticket_event (set_ticket db t2) tid "COMPLETE" a none).1 := by
  unfold complete_ticket at h
  cases hfind : get_ticket_by_id db tid with
  | none =>
    rw [hfind] at h
    exact absurd h (by simp)
  | some t =>
    rw [hfind] at h
    by_cases hs : t.status = TicketStatus.ASSIGNED ∨ t.status = TicketStatus.IN_PROGRESS
    · have hsb : (t.status == TicketStatus.ASSIGNED || t.status == TicketStatus.IN_PROGRESS) = true := by
        rcases hs with h1 | h1 <;> simp [h1]
      by_cases hr : receipt_count db tid = 0
      · simp [hsb, hr] at h
      · have hrb : (receipt_count db tid == 0) = false := by simp [hr]
        simp only [hsb, Bool.not_true, Bool.false_eq_true, if_false, hrb,
          Except.ok.injEq, Prod.mk.injEq] at h
        exact ⟨t, rfl, hs, hr, h.2.symm, by rw [← h.1, ← h.2]⟩
    · have hsb : (t.status == TicketStatus.ASSIGNED || t.status == TicketStatus.IN_PROGRESS) = false := by
        push_neg at hs
        simp [hs.1, hs.2]
      simp [hsb] at h

/-- Shape of a successful `assign_ticket` call: any supplied expected
version matched the stored one, the transition to ASSIGNED was legal, the
ticket gets the chosen technician and `version + 1`, and exactly one ASSIGN
event is appended. -/
theorem assign_ticket_ok_shape (db : DB) (tid : Nat) (techid : Option Nat)
    (auto : Bool) (a : Option Nat) (v : Option Nat) (kw : List (String × String))
    (now : Int) (db2 : DB) (t2 : Ticket)
    (h : assign_ticket db tid techid auto a v kw now = .ok (db2, t2)) :
    ∃ (t : Ticket) (technician : Technician),
      get_ticket_by_id db tid = some t ∧
      (v = none ∨ v = some t.version) ∧
      validate_status_transition t.status .ASSIGNED = true ∧
      t2 = { t with
              status := TicketStatus.ASSIGNED
              technician_id := some technician.id
              updated_at := now
              version := t.version + 1 } ∧
      db2 = (create_ticket_event (set_ticket db t2) tid "ASSIGN" a
        (some ([("technician_id", toString technician.id),
                ("technician_name", technician.name),
                ("assignment_method", if auto then "auto" else "manual")] ++ kw))).1 := by
  unfold assign_ticket at h
  cases hfind : get_ticket_by_id db tid with
  | none =>
    rw [hfind] at h
    exact absurd h (by simp)
  | some t =>
    rw [hfind] at h
    simp only [] at h
    split at h
    case isTrue => simp at h
    case isFalse hver =>
    by_cases htr : validate_status_transition t.status .ASSIGNED
    · simp only [htr, Bool.not_true, Bool.false_eq_true, if_false] at h
      split at h
      · exact absurd h (by simp)
      · rename_i technician heq
        simp only [Except.ok.injEq, Prod.mk.injEq] at h
        refine ⟨t, technician, rfl, ?_, htr, h.2.symm, by rw [← h.1, ← h.2]⟩
        cases v with
        | none => exact Or.inl rfl
        | some ver =>
          have hv2 : t.version = ver := by simpa using hver
          exact Or.inr (by rw [hv2])
    · rw [Bool.not_eq_true] at htr
      simp [htr] at h

/-- Shape of a successful `update_ticket_status` call: the supplied version
matched; either a different status was requested — then the transition was
legal, the status is written with `version + 1` and one STATUS_CHANGE event
is appended — or nothing changes. -/
theorem update_ticket_status_ok_shape (db : DB) (tid : Nat) (upd : TicketUpdate)
    (actor : Nat) (now : Int) (db2 : DB) (t2 : Ticket)
    (h : update_ticket_status db tid upd actor now = .ok (db2, t2)) :
    ∃ t, get_ticket_by_id db tid = some t ∧
      t.version = upd.version ∧
      ((∃ s, upd.status = some s ∧ s ≠ t.status ∧
          validate_status_transition t.status s = true ∧
          t2 = { t with status := s, version := t.version + 1 } ∧
          db2 = (create_ticket_event (set_ticket db t2) tid "STATUS_CHANGE"
            (some actor)
            (some [("old_status", t.status.value), ("new_status", s.value)])).1) ∨
       (db2 = db ∧ t2 = t ∧ (upd.status = none ∨ upd.status = some t.status))) := by
  unfold update_ticket_status at h
  cases hfind : get_ticket_by_id db tid with
  | none =>
    rw [hfind] at h
    exact absurd h (by simp)
  | some t =>
    rw [hfind] at h
    simp only [] at h
    by_cases hv : t.version = upd.version
    · rw [if_neg (not_not_intro hv)] at h
      cases hst : upd.status with
      | none =>
        rw [hst] at h
        simp only [Except.ok.injEq, Prod.mk.injEq] at h
        exact ⟨t, rfl, hv, Or.inr ⟨h.1.symm, h.2.symm, Or.inl rfl⟩⟩
      | some s =>
        rw [hst] at h
        simp only [] at h
        by_cases hne : s = t.status
        · rw [if_neg (not_not_intro hne)] at h
          simp only [Except.ok.injEq, Prod.mk.injEq] at h
          exact ⟨t, rfl, hv, Or.inr ⟨h.1.symm, h.2.symm, Or.inr (by rw [hne])⟩⟩
        · rw [if_pos hne] at h
          by_cases htr : validate_status_transition t.status s
          · simp only [htr, Bool.not_true, Bool.false_eq_true, if_false,
              Except.ok.injEq, Prod.mk.injEq] at h
            exact ⟨t, rfl, hv, Or.inl ⟨s, rfl, hne, htr, h.2.symm, by rw [← h.1, ← h.2]⟩⟩
          · rw [Bool.not_eq_true] at htr
            simp [htr] at h
    · rw [if_pos hv] at h
      exact absurd h (by simp)

/-- Helper for C4: `assign_ticket` with a supplied version that differs
from the stored one raises 409 before touching anything. -/
theorem assign_ticket_conflict (db : DB) (tid : Nat) (techid : Option Nat)
    (auto : Bool) (a : Option Nat) (kw : List (String × String)) (now : Int)
    (t : Ticket) (ver : Nat)
    (hfind : get_ticket_by_id db tid = some t) (hv : t.version ≠ ver) :
    assign_ticket db tid techid auto a (some ver) kw now = .error .conflict := by
  unfold assign_ticket
  rw [hfind]
  simp [hv]

/-- Helper for C4: the PATCH handler with a version that differs from the
stored one raises 409 before touching anything. -/
theorem update_ticket_status_conflict (db : DB) (tid : Nat) (upd : TicketUpdate)
    (actor : Nat) (now : Int) (t : Ticket)
    (hfind : get_ticket_by_id db tid = some t) (hv : t.version ≠ upd.version) :
    update_ticket_status db tid upd actor now = .error .conflict := by
  unfold update_ticket_status
  rw [hfind]
  simp [hv]

/-- C1 (amended): among the mutating ticket operations, `assign_ticket` and
a status-changing PATCH increment the stored version by exactly one, while
`confirm_ticket` and `complete_ticket` leave the version unchanged. -/
theorem version_change_per_operation :
    (∀ db tid a now db2 t2 t, get_ticket_by_id db tid = some t →
       confirm_ticket db tid a now = .ok (db2, t2) → t2.version = t.version) ∧
    (∀ db tid a now db2 t2 t, get_ticket_by_id db tid = some t →
       complete_ticket db tid a now = .ok (db2, t2) → t2.version = t.version) ∧
    (∀ db tid techid auto a v kw now db2 t2 t, get_ticket_by_id db tid = some t →
       assign_ticket db tid techid auto a v kw now = .ok (db2, t2) →
       t2.version = t.version + 1) ∧
    (∀ db tid upd actor now db2 t2 t s, get_ticket_by_id db tid = some t →
       upd.status = some s → s ≠ t.status →
       update_ticket_status db tid upd actor now = .ok (db2, t2) →
       t2.version = t.version + 1) := by
  refine ⟨?_, ?_, ?_, ?_⟩
  · intro db tid a now db2 t2 t hfind h
    obtain ⟨t', hfind', -, ht2, -⟩ := confirm_ticket_ok_shape db tid a now db2 t2 h
    rw [hfind] at hfind'
    cases hfind'
    rw [ht2]
  · intro db tid a now db2 t2 t hfind h
    obtain ⟨t', hfind', -, -, ht2, -⟩ := complete_ticket_ok_shape db tid a now db2 t2 h
    rw [hfind] at hfind'
    cases hfind'
    rw [ht2]
  · intro db tid techid auto a v kw now db2 t2 t hfind h
    obtain ⟨t', tech, hfind', -, -, ht2, -⟩ :=
      assign_ticket_ok_shape db tid techid auto a v kw now db2 t2 h
    rw [hfind] at hfind'
    cases hfind'
    rw [ht2]
  · intro db tid upd actor now db2 t2 t s hfind hst hne h
    obtain ⟨t', hfind', -, hcase⟩ := update_ticket_status_ok_shape db tid upd actor now db2 t2 h
    rw [hfind] at hfind'
    cases hfind'
    rcases hcase with ⟨s', hs', -, -, ht2, -⟩ | ⟨-, -, hnone⟩
    · rw [ht2]
    · rcases hnone with h1 | h1
      · rw [hst] at h1
        exact absurd h1 (by simp)
      · rw [hst] at h1
        exact absurd (Option.some.inj h1) hne

/-- C4 (amended): only `assign_ticket` (when the caller supplies an
expected version — the API request model makes it mandatory) and the PATCH
handler (whose schema requires `version`) perform the optimistic-locking
check; a mismatch raises HTTP 409 — before any mutation, so the ticket is
untouched — and a success implies the supplied version equalled the stored
one.  `confirm_ticket` and `complete_ticket` accept no expected version at
all. -/
theorem version_conflict_behavior :
    (∀ db tid techid auto a kw now t ver, get_ticket_by_id db tid = some t →
       t.version ≠ ver →
       assign_ticket db tid techid auto a (some ver) kw now = .error .conflict) ∧
    (∀ db tid upd actor now t, get_ticket_by_id db tid = some t →
       t.version ≠ upd.version →
       update_ticket_status db tid upd actor now = .error .conflict) ∧
    (∀ db tid techid auto a kw now t ver db2 t2, get_ticket_by_id db tid = some t →
       assign_ticket db tid techid auto a (some ver) kw now = .ok (db2, t2) →
       ver = t.version) ∧
    (∀ db tid upd actor now t db2 t2, get_ticket_by_id db tid = some t →
       update_ticket_status db tid upd actor now = .ok (db2, t2) →
       upd.version = t.version) ∧
    HTTPError.conflict.statusCode = 409 := by
  refine ⟨assign_ticket_conflict, update_ticket_status_conflict, ?_, ?_, rfl⟩
  · intro db tid techid auto a kw now t ver db2 t2 hfind h
    obtain ⟨t', tech, hfind', hver, -⟩ :=
      assign_ticket_ok_shape db tid techid auto a (some ver) kw now db2 t2 h
    rw [hfind] at hfind'
    cases hfind'
    rcases hver with h1 | h1
    · exact absurd h1 (by simp)
    · exact Option.some.inj h1
  · intro db tid upd actor now t db2 t2 hfind h
    obtain ⟨t', hfind', hver, -⟩ := update_ticket_status_ok_shape db tid upd actor now db2 t2 h
    rw [hfind] at hfind'
    cases hfind'
    exact hver.symm

/-- C8: every successful transition operation appends exactly one new
`TicketEvent` row — recording the ticket, the acting user, the action name
and the details dict the code supplies (`details_json` is NULL where the
code passes no details, as in CONFIRM and COMPLETE) — and leaves every
pre-existing event row intact.  Of the remaining operations, the public
booking always fails at commit and stores nothing, and the image upload
only ever appends (its event's `image_id` detail is the string "None", the
pre-flush `str(image.id)` the code stores); so no operation rewrites or
deletes an existing event row. -/
theorem transition_event_append :
    (∀ db tid a now db2 t2, confirm_ticket db tid a now = .ok (db2, t2) →
       db2.events = db.events ++
         [{ ticket_id := tid, actor_user_id := a, action := "CONFIRM",
            details_json := none }]) ∧
    (∀ db tid a now db2 t2, complete_ticket db tid a now = .ok (db2, t2) →
       db2.events = db.events ++
         [{ ticket_id := tid, actor_user_id := a, action := "COMPLETE",
            details_json := none }]) ∧
    (∀ db tid techid auto a v kw now db2 t2,
       assign_ticket db tid techid auto a v kw now = .ok (db2, t2) →
       ∃ d, db2.events = db.events ++
         [{ ticket_id := tid, actor_user_id := a, action := "ASSIGN",
            details_json := some d }]) ∧
    (∀ db tid upd actor now db2 t2 t s, get_ticket_by_id db tid = some t →
       upd.status = some s → s ≠ t.status →
       update_ticket_status db tid upd actor now = .ok (db2, t2) →
       db2.events = db.events ++
         [{ ticket_id := tid, actor_user_id := some actor, action := "STATUS_CHANGE",
            details_json := some [("old_status", t.status.value),
                                  ("new_status", s.value)] }]) ∧
    (∀ db b nid now, submit_booking db b nid now = .error .internalError) ∧
    (∀ db tid actor imgid fn db2 img,
       upload_ticket_image db tid actor imgid fn = .ok (db2, img) →
       db2.events = db.events ++
         [{ ticket_id := tid, actor_user_id := some actor, action := "UPLOAD_RECEIPT",
            details_json := some [("image_id", "None"), ("filename", fn)] }]) := by
  refine ⟨?_, ?_, ?_, ?_, ?_, ?_⟩
  · intro db tid a now db2 t2 h
    obtain ⟨t, -, -, -, hdb2⟩ := confirm_ticket_ok_shape db tid a now db2 t2 h
    rw [hdb2]
    simp [create_ticket_event, set_ticket]
  · intro db tid a now db2 t2 h
    obtain ⟨t, -, -, -, -, hdb2⟩ := complete_ticket_ok_shape db tid a now db2 t2 h
    rw [hdb2]
    simp [create_ticket_event, set_ticket]
  · intro db tid techid auto a v kw now db2 t2 h
    obtain ⟨t, tech, -, -, -, -, hdb2⟩ :=
      assign_ticket_ok_shape db tid techid auto a v kw now db2 t2 h
    refine ⟨[("technician_id", toString tech.id),
             ("technician_name", tech.name),
             ("assignment_method", if auto then "auto" else "manual")] ++ kw, ?_⟩
    rw [hdb2]
    simp [create_ticket_event, set_ticket]
  · intro db tid upd actor now db2 t2 t s hfind hst hne h
    obtain ⟨t', hfind', -, hcase⟩ := update_ticket_status_ok_shape db tid upd actor now db2 t2 h
    rw [hfind] at hfind'
    cases hfind'
    rcases hcase with ⟨s', hs', -, -, -, hdb2⟩ | ⟨-, -, hnone⟩
    · rw [hst] at hs'
      cases Option.some.inj hs'
      rw [hdb2]
      simp [create_ticket_event, set_ticket]
    · rcases hnone with h1 | h1
      · rw [hst] at h1
        exact absurd h1 (by simp)
      · rw [hst] at h1
        exact absurd (Option.some.inj h1) hne
  · intro db b nid now
    rfl
  · intro db tid actor imgid fn db2 img h
    unfold upload_ticket_image at h
    cases hfind : get_ticket_by_id db tid with
    | none =>
      rw [hfind] at h
      exact absurd h (by simp)
    | some t =>
      rw [hfind] at h
      simp only [Except.ok.injEq, Prod.mk.injEq] at h
      rw [← h.1]
      simp [create_ticket_event]

/-- Booking payload for the C2 run. -/
def c2_booking : BookingData :=
  { customer_name := "Zhang"
    customer_phone_hash := "ph"
    address := "addr"
    appointment_date := 1
    appointment_time := 9
    issue_desc := "no power" }

/-- Active technician for the C2 run. -/
def c2_tech : Technician := { id := 2, name := "Li", center_id := none, is_active := true }

/-- An existing BOOKED ticket for the C2 run (the public booking endpoint
itself always fails at commit, so tickets enter the store through the seed
script, which creates BOOKED rows exactly like this one). -/
def c2_ticket : Ticket :=
  { id := 1
    customer_name := "Zhang"
    customer_phone_hash := "ph"
    address := "addr"
    appointment_date := 1
    appointment_time := 9
    issue_desc := "no power"
    status := TicketStatus.BOOKED
    center_id := none
    technician_id := none
    ai_run_id := none
    created_at := 0
    updated_at := 0
    completed_at := none
    version := 1 }

/-- Initial store for the C2 run: one existing BOOKED ticket, one
technician, no events, no images. -/
def c2_db0 : DB :=
  { tickets := [c2_ticket], events := [], images := [], technicians := [c2_tech] }

/-- The C2 run, starting from the existing BOOKED ticket: confirm,
auto-assign, then two PATCH status updates — ASSIGNED → IN_PROGRESS and
IN_PROGRESS → COMPLETED — with correct versions and never uploading any
image. -/
def c2_result : Except HTTPError (DB × Ticket) := do
  let (db2, _) ← confirm_ticket c2_db0 1 (some 9) 0
  let (db3, _) ← assign_ticket db2 1 none true (some 9) (some 1) [] 0
  let (db4, _) ← update_ticket_status db3 1
    { status := some TicketStatus.IN_PROGRESS, technician_id := none,
      center_id := none, version := 2 } 9 0
  update_ticket_status db4 1
    { status := some TicketStatus.COMPLETED, technician_id := none,
      center_id := none, version := 3 } 9 0

/-- C2 (divergence): the PATCH route accepts IN_PROGRESS → COMPLETED with
no receipt check, so this operation sequence — run against a store already
holding a BOOKED ticket, as the seed script creates — reaches a stored
COMPLETED ticket whose RECEIPT-image count is zero, contradicting the
invariant that `complete_ticket` enforces. -/
theorem patch_reaches_completed_without_receipt :
    c2_result.map (fun r => (r.2.status, receipt_count r.1 1)) =
      .ok (TicketStatus.COMPLETED, 0) ∧
    c2_result.map (fun r => (get_ticket_by_id r.1 1).map Ticket.status) =
      .ok (some TicketStatus.COMPLETED) := by
  constructor
  · rfl
  · rfl

/-- `codes_subset` is Python `set.issubset` on the underlying sets. -/
theorem codes_subset_iff (l1 l2 : List String) :
    codes_subset l1 l2 = true ↔ ∀ c ∈ l1, c ∈ l2 := by
  simp [codes_subset, List.all_eq_true, List.elem_iff]

/-- Field-level description of `apply_role_data`. -/
theorem apply_role_data_fields (db : RbacDB) (role : Role) (d : RoleUpdate) :
    (apply_role_data db role d).id = role.id ∧
    (apply_role_data db role d).is_system = role.is_system ∧
    (apply_role_data db role d).users = role.users ∧
    (apply_role_data db role d).name = d.name.getD role.name ∧
    ((d.permission_codes = none ∧
        (apply_role_data db role d).permissions = role.permissions) ∨
     (∃ codes, d.permission_codes = some codes ∧
        (apply_role_data db role d).permissions =
          db.permission_table.filter (fun p => codes.contains p.code))) := by
  unfold apply_role_data
  cases hc : d.permission_codes with
  | none => exact ⟨rfl, rfl, rfl, rfl, Or.inl ⟨rfl, rfl⟩⟩
  | some codes => exact ⟨rfl, rfl, rfl, rfl, Or.inr ⟨codes, rfl, rfl⟩⟩

/-- Shape of a successful `update_role` call: either the role id is unknown
and nothing changes, or the role is found, all three guards passed, and the
stored row is `apply_role_data`. -/
theorem update_role_ok_shape (db : RbacDB) (rid : Nat) (d : RoleUpdate)
    (db2 : RbacDB) (r2opt : Option Role)
    (h : update_role db rid d = .ok (db2, r2opt)) :
    (db2 = db ∧ r2opt = none ∧ db.roles.find? (fun r => r.id == rid) = none) ∨
    (∃ role, db.roles.find? (fun r => r.id == rid) = some role ∧
       (role.is_system = true → d.name = none ∨ d.name = some role.name) ∧
       (role.is_system = true → ∀ codes core, d.permission_codes = some codes →
          SYSTEM_ROLE_CORE_PERMISSIONS role.name = some core →
          codes_subset core codes = true) ∧
       (∀ codes, d.permission_codes = some codes →
          validate_permission_codes db codes = true) ∧
       r2opt = some (apply_role_data db role d) ∧
       db2 = set_role db (apply_role_data db role d)) := by
  unfold update_role at h
  cases hfind : db.roles.find? (fun r => r.id == rid) with
  | none =>
    rw [hfind] at h
    simp only [Except.ok.injEq, Prod.mk.injEq] at h
    exact Or.inl ⟨h.1.symm, h.2.symm, rfl⟩
  | some role =>
    rw [hfind] at h
    simp only [] at h
    split at h
    case isTrue => simp at h
    case isFalse hg1 =>
    split at h
    case isTrue => simp at h
    case isFalse hg2 =>
    split at h
    case isTrue => simp at h
    case isFalse hg3 =>
    simp only [Except.ok.injEq, Prod.mk.injEq] at h
    rw [Bool.not_eq_true, Bool.and_eq_false_iff] at hg1 hg2
    refine Or.inr ⟨role, rfl, ?_, ?_, ?_, h.2.symm, h.1.symm⟩
    · intro hsys
      rcases hg1 with h1 | h1
      · rw [hsys] at h1
        exact absurd h1 (by simp)
      · cases hn : d.name with
        | none => exact Or.inl rfl
        | some n =>
          rw [hn] at h1
          simp only [bne_eq_false_iff_eq] at h1
          exact Or.inr (by rw [h1])
    · intro hsys codes core hcodes hcore
      rcases hg2 with h1 | h1
      · rw [hsys] at h1
        exact absurd h1 (by simp)
      · rw [hcodes, hcore] at h1
        simpa using h1
    · intro codes hcodes
      rw [Bool.not_eq_true] at hg3
      rw [hcodes] at hg3
      simpa using hg3

/-- A successful `update_role` preserves the core-permission invariant of
every stored role. -/
theorem update_role_preserves_core (db : RbacDB) (rid : Nat) (d : RoleUpdate)
    (db2 : RbacDB) (r2opt : Option Role)
    (h : update_role db rid d = .ok (db2, r2opt))
    (hinv : roles_core_ok db = true) : roles_core_ok db2 = true := by
  rcases update_role_ok_shape db rid d db2 r2opt h with
    ⟨rfl, -, -⟩ | ⟨role, hfind, gname, gcore, gvalid, -, hdb2⟩
  · exact hinv
  · have hrolemem : role ∈ db.roles := List.mem_of_find?_eq_some hfind
    obtain ⟨-, hsys_eq, -, hname_eq, hperm⟩ := apply_role_data_fields db role d
    rw [hdb2]
    unfold roles_core_ok set_role
    simp only [List.all_eq_true, List.mem_map]
    rintro r ⟨r0, hr0, hr0eq⟩
    by_cases hid : (r0.id == (apply_role_data db role d).id) = true
    · rw [if_pos hid] at hr0eq
      subst hr0eq
      unfold role_core_ok
      cases hcore : SYSTEM_ROLE_CORE_PERMISSIONS (apply_role_data db role d).name with
      | none => rfl
      | some core =>
        by_cases hsys : role.is_system = true
        · have hname : (apply_role_data db role d).name = role.name := by
            rcases gname hsys with h1 | h1 <;> rw [hname_eq, h1] <;> rfl
          rw [hname] at hcore
          simp only [hsys_eq, hsys, Bool.not_true, Bool.false_or]
          rcases hperm with ⟨hnonecodes, hpermeq⟩ | ⟨codes, hcodes, hpermeq⟩
          · have hr := (List.all_eq_true.mp hinv) role hrolemem
            unfold role_core_ok at hr
            rw [hcore] at hr
            simp only [hsys, Bool.not_true, Bool.false_or] at hr
            rw [hpermeq]
            exact hr
          · have hsub : codes_subset core codes = true := gcore hsys codes core hcodes hcore
            have hvalid : validate_permission_codes db codes = true := gvalid codes hcodes
            rw [hpermeq]
            rw [codes_subset_iff]
            intro c hc
            have hc_codes : c ∈ codes := (codes_subset_iff core codes).mp hsub c hc
            have hcodes_ne : codes ≠ [] := fun hnil => by
              rw [hnil] at hc_codes
              exact absurd hc_codes (List.not_mem_nil c)
            have hc_table : c ∈ db.permission_table.map (fun p => p.code) := by
              unfold validate_permission_codes at hvalid
              rw [if_neg (by simpa using hcodes_ne)] at hvalid
              have := (List.all_eq_true.mp hvalid) c hc_codes
              exact List.elem_iff.mp this
            simp only [List.mem_map] at hc_table
            obtain ⟨p, hp, hpcode⟩ := hc_table
            simp only [List.mem_map]
            refine ⟨p, ?_, hpcode⟩
            rw [List.mem_filter]
            refine ⟨hp, ?_⟩
            rw [hpcode]
            exact List.elem_iff.mpr hc_codes
        · rw [Bool.not_eq_true] at hsys
          simp [hsys_eq, hsys]
    · rw [if_neg hid] at hr0eq
      subst hr0eq
      exact (List.all_eq_true.mp hinv) r0 hr0

/-- One `update_role` call of a sequence preserves the invariant: failed or
no-such-role calls change nothing, successful calls preserve it. -/
theorem apply_role_update_preserves (db : RbacDB) (op : Nat × RoleUpdate)
    (hinv : roles_core_ok db = true) :
    roles_core_ok (apply_role_update db op) = true := by
  unfold apply_role_update
  cases hres : update_role db op.1 op.2 with
  | error e => exact hinv
  | ok p =>
    exact update_role_preserves_core db op.1 op.2 p.1 p.2 (by rw [hres]) hinv

/-- C7: a system role named in `SYSTEM_ROLE_CORE_PERMISSIONS` cannot lose a
core permission through `update_role`: a request whose `permission_codes`
misses a core code is rejected with HTTP 400 (and, raised before any field
assignment, changes nothing), and any sequence of `update_role` calls keeps
every stored system role's permission set a superset of its core set. -/
theorem system_role_core_permissions_preserved :
    (∀ db rid d role codes core,
       db.roles.find? (fun r => r.id == rid) = some role →
       role.is_system = true →
       SYSTEM_ROLE_CORE_PERMISSIONS role.name = some core →
       d.permission_codes = some codes →
       codes_subset core codes = false →
       update_role db rid d = .error .badRequest) ∧
    (∀ db ops, roles_core_ok db = true →
       roles_core_ok (apply_role_updates db ops) = true) ∧
    HTTPError.badRequest.statusCode = 400 := by
  refine ⟨?_, ?_, rfl⟩
  · intro db rid d role codes core hfind hsys hcore hcodes hsub
    unfold update_role
    rw [hfind]
    simp only []
    split
    case isTrue => rfl
    case isFalse hg1 =>
    have hg2 : (role.is_system &&
        (match d.permission_codes, SYSTEM_ROLE_CORE_PERMISSIONS role.name with
         | some new_codes, some core => !(codes_subset core new_codes)
         | _, _ => false)) = true := by
      rw [hsys, hcodes, hcore]
      simp [hsub]
    rw [hg2]
    rfl
  · intro db ops hinv
    induction ops generalizing db with
    | nil => exact hinv
    | cons op rest ih =>
      unfold apply_role_updates at ih ⊢
      rw [List.foldl_cons]
      exact ih (apply_role_update db op) (apply_role_update_preserves db op hinv)

/-- A one-ticket sample row used by the concrete instances below. -/
def sample_ticket (s : TicketStatus) (ver : Nat) : Ticket :=
  { id := 1
    customer_name := "n"
    customer_phone_hash := "p"
    address := "a"
    appointment_date := 0
    appointment_time := 0
    issue_desc := "i"
    status := s
    center_id := none
    technician_id := none
    ai_run_id := none
    created_at := 0
    updated_at := 0
    completed_at := none
    version := ver }

/-- Store with a BOOKED ticket, for the confirm instances. -/
def w1c_db : DB :=
  { tickets := [sample_ticket .BOOKED 1], events := [], images := [], technicians := [] }

/-- The confirmed ticket row resulting from `confirm_ticket` on `w1c_db`. -/
def w1c_after : Ticket :=
  { sample_ticket .BOOKED 1 with status := TicketStatus.CONFIRMED, updated_at := 3 }

/-- The store resulting from `confirm_ticket` on `w1c_db`. -/
def w1c_db2 : DB :=
  (create_ticket_event (set_ticket w1c_db w1c_after) 1 "CONFIRM" (some 9) none).1

/-- Receipt image row for the complete instances. -/
def w1k_img : TicketImage :=
  { id := 1, ticket_id := 1, type := ImageType.RECEIPT, file_name := "r.jpg",
    uploaded_by_user_id := some 9 }

/-- Store with an IN_PROGRESS ticket and one receipt, for the complete
instances. -/
def w1k_db : DB :=
  { tickets := [sample_ticket .IN_PROGRESS 4], events := [], images := [w1k_img],
    technicians := [] }

/-- The completed ticket row resulting from `complete_ticket` on `w1k_db`. -/
def w1k_after : Ticket :=
  { sample_ticket .IN_PROGRESS 4 with
      status := TicketStatus.COMPLETED
      completed_at := some 5
      updated_at := 5 }

/-- The store resulting from `complete_ticket` on `w1k_db`. -/
def w1k_db2 : DB :=
  (create_ticket_event (set_ticket w1k_db w1k_after) 1 "COMPLETE" (some 9) none).1

/-- Active technician for the assign instances. -/
def w1a_tech : Technician := { id := 4, name := "Lina", center_id := none, is_active := true }

/-- Store with a CONFIRMED ticket and one technician, for the assign
instances. -/
def w1a_db : DB :=
  { tickets := [sample_ticket .CONFIRMED 2], events := [], images := [],
    technicians := [w1a_tech] }

/-- The assigned ticket row resulting from `assign_ticket` on `w1a_db`. -/
def w1a_after : Ticket :=
  { sample_ticket .CONFIRMED 2 with
      status := TicketStatus.ASSIGNED
      technician_id := some 4
      updated_at := 6
      version := 3 }

/-- The store resulting from `assign_ticket` on `w1a_db`. -/
def w1a_db2 : DB :=
  (create_ticket_event (set_ticket w1a_db w1a_after) 1 "ASSIGN" (some 9)
    (some ([("technician_id", toString (4 : Nat)), ("technician_name", "Lina"),
            ("assignment_method", "manual")] ++ []))).1

/-- Store with an ASSIGNED ticket, for the PATCH instances. -/
def w1p_db : DB :=
  { tickets := [sample_ticket .ASSIGNED 3], events := [], images := [], technicians := [] }

/-- PATCH payload moving the ticket to IN_PROGRESS at version 3. -/
def w1p_upd : TicketUpdate :=
  { status := some TicketStatus.IN_PROGRESS, technician_id := none,
    center_id := none, version := 3 }

/-- The ticket row resulting from the PATCH on `w1p_db`. -/
def w1p_after : Ticket :=
  { sample_ticket .ASSIGNED 3 with status := TicketStatus.IN_PROGRESS, version := 4 }

/-- The store resulting from the PATCH on `w1p_db`. -/
def w1p_db2 : DB :=
  (create_ticket_event (set_ticket w1p_db w1p_after) 1 "STATUS_CHANGE" (some 9)
    (some [("old_status", "ASSIGNED"), ("new_status", "IN_PROGRESS")])).1

/-- C1 (counterexample): `confirm_ticket` succeeds on a version-1 BOOKED
ticket and returns the ticket still at version 1, not 2 — the claim's
"version before plus one" fails for the confirm transition. -/
theorem confirm_version_not_incremented_counterexample :
    (get_ticket_by_id w1c_db 1).map Ticket.version = some 1 ∧
    (confirm_ticket w1c_db 1 (some 9) 3).map (fun r => r.2.version) = .ok 1 ∧
    (confirm_ticket w1c_db 1 (some 9) 3).map (fun r => r.2.version) ≠ .ok 2 := by
  refine ⟨rfl, rfl, ?_⟩
  intro h
  rw [show (confirm_ticket w1c_db 1 (some 9) 3).map (fun r => r.2.version) =
      Except.ok 1 from rfl] at h
  exact absurd (Except.ok.inj h) (by decide)

/-- C1 witness: the amended theorem evaluated on concrete stores — confirm
and complete keep versions 1 and 4, assign bumps 2 to 3, PATCH bumps 3 to
4. -/
theorem version_change_per_operation_witness :
    w1c_after.version = (sample_ticket .BOOKED 1).version ∧
    w1k_after.version = (sample_ticket .IN_PROGRESS 4).version ∧
    w1a_after.version = (sample_ticket .CONFIRMED 2).version + 1 ∧
    w1p_after.version = (sample_ticket .ASSIGNED 3).version + 1 :=
  ⟨version_change_per_operation.1 w1c_db 1 (some 9) 3 w1c_db2 w1c_after
      (sample_ticket .BOOKED 1) rfl rfl,
   version_change_per_operation.2.1 w1k_db 1 (some 9) 5 w1k_db2 w1k_after
      (sample_ticket .IN_PROGRESS 4) rfl rfl,
   version_change_per_operation.2.2.1 w1a_db 1 (some 4) false (some 9) (some 2) [] 6
      w1a_db2 w1a_after (sample_ticket .CONFIRMED 2) rfl rfl,
   version_change_per_operation.2.2.2 w1p_db 1 w1p_upd 9 0 w1p_db2 w1p_after
      (sample_ticket .ASSIGNED 3) TicketStatus.IN_PROGRESS rfl rfl (by decide) rfl⟩

/-- C4 (counterexample): mutating operations succeed with no expected
version supplied at all — `assign_ticket` accepts `version = None` at the
service layer, and `confirm_ticket` / `complete_ticket` have no version
parameter — so "every mutating operation requires the caller to supply the
expected version" fails. -/
theorem mutating_ops_without_version_counterexample :
    (assign_ticket w1a_db 1 (some 4) false (some 9) none [] 6).isOk = true ∧
    (confirm_ticket w1c_db 1 (some 9) 3).isOk = true ∧
    (complete_ticket w1k_db 1 (some 9) 5).isOk = true := by
  refine ⟨rfl, rfl, rfl⟩

/-- C4 witness: the amended theorem evaluated on concrete stores — a wrong
supplied version makes assign and PATCH fail with 409, and the successful
assign of the C1 instance implies its supplied version matched. -/
theorem version_conflict_behavior_witness :
    assign_ticket w1a_db 1 (some 4) false (some 9) (some 7) [] 6 = .error .conflict ∧
    update_ticket_status w1p_db 1
      { status := some TicketStatus.IN_PROGRESS, technician_id := none,
        center_id := none, version := 9 } 9 0 = .error .conflict ∧
    (2 : Nat) = (sample_ticket .CONFIRMED 2).version :=
  ⟨version_conflict_behavior.1 w1a_db 1 (some 4) false (some 9) [] 6
      (sample_ticket .CONFIRMED 2) 7 rfl (by decide),
   version_conflict_behavior.2.1 w1p_db 1
      { status := some TicketStatus.IN_PROGRESS, technician_id := none,
        center_id := none, version := 9 } 9 0 (sample_ticket .ASSIGNED 3) rfl (by decide),
   version_conflict_behavior.2.2.1 w1a_db 1 (some 4) false (some 9) [] 6
      (sample_ticket .CONFIRMED 2) 2 w1a_db2 w1a_after rfl rfl⟩

/-- Receipt image row created by the upload instance. -/
def w8_img : TicketImage :=
  { id := 3, ticket_id := 1, type := ImageType.RECEIPT, file_name := "rc.jpg",
    uploaded_by_user_id := some 9 }

/-- The store resulting from `upload_ticket_image` on `w1c_db`. -/
def w8_db2 : DB :=
  (create_ticket_event { w1c_db with images := w1c_db.images ++ [w8_img] } 1
    "UPLOAD_RECEIPT" (some 9)
    (some [("image_id", "None"), ("filename", "rc.jpg")])).1

/-- C8 witness: the theorem evaluated on the concrete stores — each
transition and the upload append exactly their one event row, and the
booking stores nothing. -/
theorem transition_event_append_witness :
    w1c_db2.events = w1c_db.events ++
      [{ ticket_id := 1, actor_user_id := some 9, action := "CONFIRM",
         details_json := none }] ∧
    w1k_db2.events = w1k_db.events ++
      [{ ticket_id := 1, actor_user_id := some 9, action := "COMPLETE",
         details_json := none }] ∧
    (∃ d, w1a_db2.events = w1a_db.events ++
      [{ ticket_id := 1, actor_user_id := some 9, action := "ASSIGN",
         details_json := some d }]) ∧
    w1p_db2.events = w1p_db.events ++
      [{ ticket_id := 1, actor_user_id := some 9, action := "STATUS_CHANGE",
         details_json := some [("old_status", "ASSIGNED"),
                               ("new_status", "IN_PROGRESS")] }] ∧
    submit_booking c2_db0 c2_booking 1 0 = .error .internalError ∧
    w8_db2.events = w1c_db.events ++
      [{ ticket_id := 1, actor_user_id := some 9, action := "UPLOAD_RECEIPT",
         details_json := some [("image_id", "None"),
                               ("filename", "rc.jpg")] }] :=
  ⟨transition_event_append.1 w1c_db 1 (some 9) 3 w1c_db2 w1c_after rfl,
   transition_event_append.2.1 w1k_db 1 (some 9) 5 w1k_db2 w1k_after rfl,
   transition_event_append.2.2.1 w1a_db 1 (some 4) false (some 9) (some 2) [] 6
     w1a_db2 w1a_after rfl,
   transition_event_append.2.2.2.1 w1p_db 1 w1p_upd 9 0 w1p_db2 w1p_after
     (sample_ticket .ASSIGNED 3) TicketStatus.IN_PROGRESS rfl rfl (by decide) rfl,
   transition_event_append.2.2.2.2.1 c2_db0 c2_booking 1 0,
   transition_event_append.2.2.2.2.2 w1c_db 1 9 3 "rc.jpg" w8_db2 w8_img rfl⟩

/-- Permission rows for the C7 witness store. -/
def w7_perms : List Permission :=
  [{ id := 1, code := "tickets.read", category := "tickets" },
   { id := 2, code := "tickets.write", category := "tickets" },
   { id := 3, code := "tickets.upload", category := "tickets" },
   { id := 4, code := "warranty.read", category := "warranty" },
   { id := 5, code := "audit.read", category := "audit" }]

/-- The system role "agent" holding exactly its core permissions. -/
def w7_agent : Role :=
  { id := 1
    name := "agent"
    description := "support agent"
    is_system := true
    permissions := [{ id := 1, code := "tickets.read", category := "tickets" },
                    { id := 2, code := "tickets.write", category := "tickets" },
                    { id := 3, code := "tickets.upload", category := "tickets" },
                    { id := 4, code := "warranty.read", category := "warranty" }]
    users := [] }

/-- Store for the C7 witness. -/
def w7_db : RbacDB := { roles := [w7_agent], permission_table := w7_perms }

/-- An update dropping core permissions of "agent" (rejected). -/
def w7_bad : RoleUpdate :=
  { name := none, description := none, permission_codes := some ["tickets.read"] }

/-- An update keeping the core and adding a permission (accepted). -/
def w7_good : RoleUpdate :=
  { name := none
    description := none
    permission_codes := some ["tickets.read", "tickets.write", "tickets.upload",
                              "warranty.read", "audit.read"] }

/-- C7 witness: the theorem evaluated on a concrete store — the shrinking
update is rejected with 400, and a sequence of updates keeps the core. -/
theorem system_role_core_permissions_preserved_witness :
    update_role w7_db 1 w7_bad = .error .badRequest ∧
    roles_core_ok (apply_role_updates w7_db [(1, w7_good), (1, w7_bad)]) = true :=
  ⟨system_role_core_permissions_preserved.1 w7_db 1 w7_bad w7_agent
      ["tickets.read"]
      ["tickets.read", "tickets.write", "tickets.upload", "warranty.read"]
      rfl rfl rfl rfl (by decide),
   system_role_core_permissions_preserved.2.1 w7_db [(1, w7_good), (1, w7_bad)]
      (by decide)⟩
